import Mathlib

/-!
Verification development for the `citus_cloud_mgmt` Python package
(`src/citus_cloud_mgmt/__init__.py`), a shallow embedding of:

* the authenticated-request primitive `CitusCloudMgmt._request`
  (redirect-resolution loop with an inline sign-in flow),
* the encrypted cookie persistence layer
  (`_secret_box`, `_load_cookies`, `_save_cookies`, `__init__`),
* the role-administration response handlers
  (`create_role`, `get_role_credentials`).

HTTP traffic is modelled by an oracle `server : Nat → Response` giving the
final (post-redirect) response of the n-th HTTP call the client makes, and
the loop runs on explicit fuel so that non-termination is observable as a
distinguished outcome.  Library primitives that are external to the
repository (libsodium scrypt and SecretBox, pickle) are modelled by
concrete, executable codecs satisfying exactly the contracts the code
relies on: the KDF is a deterministic injective function of the
concatenated password-and-TOTP-secret bytes and the salt, authenticated
encryption recovers the plaintext under the writing key and rejects any
other key, and pickling is an injective serialisation with a partial
inverse.
-/

/-- A byte string; bytes are modelled as natural numbers. -/
abbrev Bytes := List Nat

/-- Mirrors `citus_console_url`: prepend the console base URL. -/
def citus_console_url (path : String) : String :=
  "https://console.citusdata.com/" ++ path

/-- Mirrors `SIGNIN_URL`. -/
def SIGNIN_URL : String := citus_console_url "users/sign_in"

/-- Mirrors `FORMATIONS_URL`. -/
def FORMATIONS_URL : String := citus_console_url "formations"

/-- Mirrors Python `s.startswith(pre)`, computed on the underlying
character lists. -/
def startswith (s pre : String) : Bool := List.isPrefixOf pre.data s.data

/-- Mirrors Python `s.strip()`: drop whitespace from both ends, computed
on the underlying character list. -/
def strip (s : String) : String :=
  String.mk
    (((s.data.dropWhile Char.isWhitespace).reverse.dropWhile
        Char.isWhitespace).reverse)

/-- The features of a parsed HTML page that `_request` inspects:
the `new_user` form with its hidden inputs (name, value pairs), the
presence of the `TwoFAWidget` div, and the `csrf-token` meta content.
Each is an `Option`/`Bool` because `bs4.find` returns `None` on a miss. -/
structure Page where
  newUserForm : Option (List (String × String))
  twofaWidget : Bool
  csrfToken : Option String
deriving DecidableEq

/-- The final response of one HTTP call: whether `raise_for_status`
passes, the final (post-redirect) URL `r.url`, and the parsed body. -/
structure Response where
  ok : Bool
  url : String
  page : Page
deriving DecidableEq

/-- The observable actions `_request` performs, in order: the original
request attempt, the two bare sign-in POSTs, and a `_save_cookies` call. -/
inductive ClientAction where
  | attempt
  | postCreds
  | postOtp
  | save
deriving DecidableEq

/-- The errors the module can raise, mirroring the Python exception
taxonomy: HTTP status errors from `raise_for_status`, the three
`RuntimeError` redirect violations of `_request` (general, sign-in step 1,
sign-in step 2), `assert` failures, the `AttributeError` from calling
`.attrs` on a failed `find`, NaCl decryption failure, `pickle.loads`
failure, and the `RoleAlreadyExists` conflict error. -/
inductive Err where
  | httpError
  | unexpectedRedirect (url : String)
  | unexpectedRedirectSignin1 (url : String)
  | unexpectedRedirectSignin2 (url : String)
  | assertionFailed
  | attributeError
  | decryptionError
  | pickleError
  | roleAlreadyExists (name : String)
deriving DecidableEq

/-- Outcome of `_request` under bounded fuel: a returned response, a
raised error, or fuel exhaustion (the loop is still running). -/
inductive ReqOutcome where
  | success (r : Response)
  | failure (e : Err)
  | outOfFuel
deriving DecidableEq

/-- Shallow embedding of `CitusCloudMgmt._request`.  `url` is the
requested URL, `server k` the final response of the k-th HTTP call made by
the session, `k` the index of the next call, `fuel` bounds the number of
`while True` iterations.  Returns the outcome and the trace of actions.

Faithful to the source, one iteration:
`r = session.request(...)`; `r.raise_for_status()`;
if `r.url == url` then `_save_cookies()` and return `r`;
if `r.url == SIGNIN_URL` then parse the page, `assert form`, POST the
credentials, require the final URL to start with `SIGNIN_URL + "?"`
(else RuntimeError), `assert` the TwoFAWidget, read the csrf meta token,
POST the OTP, and on a final URL equal to `FORMATIONS_URL` or `url`
`continue`, else RuntimeError; any other `r.url` raises RuntimeError. -/
def _request (url : String) (server : Nat → Response) :
    Nat → Nat → ReqOutcome × List ClientAction
  | _, 0 => (ReqOutcome.outOfFuel, [])
  | k, fuel + 1 =>
    let r := server k
    if r.ok = false then (ReqOutcome.failure Err.httpError, [ClientAction.attempt])
    else if r.url = url then
      (ReqOutcome.success r, [ClientAction.attempt, ClientAction.save])
    else if r.url = SIGNIN_URL then
      match r.page.newUserForm with
      | none => (ReqOutcome.failure Err.assertionFailed, [ClientAction.attempt])
      | some _hidden =>
        let r1 := server (k + 1)
        if r1.ok = false then
          (ReqOutcome.failure Err.httpError, [ClientAction.attempt, ClientAction.postCreds])
        else if startswith r1.url (SIGNIN_URL ++ "?") = false then
          (ReqOutcome.failure (Err.unexpectedRedirectSignin1 r1.url),
            [ClientAction.attempt, ClientAction.postCreds])
        else if r1.page.twofaWidget = false then
          (ReqOutcome.failure Err.assertionFailed, [ClientAction.attempt, ClientAction.postCreds])
        else
          match r1.page.csrfToken with
          | none =>
            (ReqOutcome.failure Err.attributeError, [ClientAction.attempt, ClientAction.postCreds])
          | some _token =>
            let r2 := server (k + 2)
            if r2.ok = false then
              (ReqOutcome.failure Err.httpError,
                [ClientAction.attempt, ClientAction.postCreds, ClientAction.postOtp])
            else if r2.url = FORMATIONS_URL ∨ r2.url = url then
              let rest := _request url server (k + 3) fuel
              (rest.1, [ClientAction.attempt, ClientAction.postCreds, ClientAction.postOtp] ++ rest.2)
            else
              (ReqOutcome.failure (Err.unexpectedRedirectSignin2 r2.url),
                [ClientAction.attempt, ClientAction.postCreds, ClientAction.postOtp])
    else
      (ReqOutcome.failure (Err.unexpectedRedirect r.url), [ClientAction.attempt])

/-! ### Cookie persistence layer -/

/-- The session cookie jar, modelled as an association list of cookie
keys to values; a well-formed `requests` jar has pairwise distinct keys. -/
abbrev Jar := List (String × String)

/-- Model of `cookielib`-style `set_cookie`: replace the value of an
existing cookie key in place, otherwise append the new cookie. -/
def set_cookie (jar : Jar) (name value : String) : Jar :=
  if jar.any (fun p => p.1 == name) then
    jar.map (fun p => if p.1 = name then (name, value) else p)
  else jar ++ [(name, value)]

/-- Model of `RequestsCookieJar.update(other)`: `set_cookie` each cookie
of `other` into `jar`, in order. -/
def jar_update (jar other : Jar) : Jar :=
  other.foldl (fun acc p => set_cookie acc p.1 p.2) jar

/-- Model of `pickle.dumps` on a single string: a length-prefixed
character-code encoding (injective with the partial inverse `decStr`). -/
def encStr (s : String) : Bytes :=
  s.data.length :: s.data.map Char.toNat

/-- Partial inverse of `encStr`, consuming a prefix of a byte stream. -/
def decStr : Bytes → Option (String × Bytes)
  | [] => none
  | n :: rest =>
    if n ≤ rest.length then
      some (String.mk ((rest.take n).map Char.ofNat), rest.drop n)
    else none

/-- Model of `pickle.dumps` on a cookie jar: a length-prefixed
concatenation of the encoded cookies. -/
def pickle_dumps (jar : Jar) : Bytes :=
  jar.length :: jar.flatMap (fun p => encStr p.1 ++ encStr p.2)

/-- Decode `n` consecutive cookie pairs from a byte stream. -/
def decPairs : Nat → Bytes → Option (Jar × Bytes)
  | 0, rest => some ([], rest)
  | n + 1, rest =>
    match decStr rest with
    | none => none
    | some (a, r1) =>
      match decStr r1 with
      | none => none
      | some (b, r2) =>
        match decPairs n r2 with
        | none => none
        | some (tl, r3) => some ((a, b) :: tl, r3)

/-- Model of `pickle.loads`: partial inverse of `pickle_dumps`, requiring the
whole blob to be consumed. -/
def pickle_loads (b : Bytes) : Option Jar :=
  match b with
  | [] => none
  | n :: rest =>
    match decPairs n rest with
    | some (jar, []) => some jar
    | _ => none

/-- `nacl.pwhash.scrypt.SALTBYTES` (libsodium scrypt salt size). -/
def SALTBYTES : Nat := 32

/-- A derived symmetric key.  Model of the scrypt KDF output: scrypt is a
deterministic injective function of its password input and salt, so the
key is modelled as the pair of the two (the password input of `_secret_box`
is the concatenated character data of the password and the TOTP secret,
mirroring `b''.join(i.encode() for i in [password, totp_secret])`). -/
structure Key where
  input : List Char
  salt : Bytes
deriving DecidableEq

/-- Model of `nacl.pwhash.scrypt.kdf` (an ideal injective KDF). -/
def kdf (input : List Char) (salt : Bytes) : Key := ⟨input, salt⟩

/-- Shallow embedding of `CitusCloudMgmt._secret_box`:
`assert len(salt) == SALTBYTES`, then derive the key from the
concatenation of the password bytes and the TOTP-secret bytes. -/
def _secret_box (password totp_secret : String) (salt : Bytes) :
    Except Err Key :=
  if salt.length = SALTBYTES then
    Except.ok (kdf (password.data ++ totp_secret.data) salt)
  else
    Except.error Err.assertionFailed

/-- Self-delimiting byte encoding of a key, used to model the
authentication tag of a NaCl `SecretBox` ciphertext. -/
def encodeKey (k : Key) : Bytes :=
  k.input.length :: (k.input.map Char.toNat ++ (k.salt.length :: k.salt))

/-- Read one length-prefixed segment from the front of a byte stream. -/
def decSeg : Bytes → Option (Bytes × Bytes)
  | [] => none
  | n :: rest =>
    if n ≤ rest.length then some (rest.take n, rest.drop n) else none

/-- Partial inverse of `encodeKey`, consuming a prefix of a byte stream. -/
def decodeKey (b : Bytes) : Option (Key × Bytes) :=
  match decSeg b with
  | none => none
  | some (inpBytes, rest) =>
    match decSeg rest with
    | none => none
    | some (saltBytes, rest2) =>
      some (⟨inpBytes.map Char.ofNat, saltBytes⟩, rest2)

/-- Model of `SecretBox(key).encrypt(blob)`: authenticated encryption,
idealised as tagging the plaintext with the key. -/
def box_encrypt (k : Key) (blob : Bytes) : Bytes := encodeKey k ++ blob

/-- Model of `SecretBox(key).decrypt(xblob)`: recovers the plaintext
exactly when the ciphertext was produced under the same key, and fails
(`None`, mapped to `nacl.exceptions.CryptoError` by the caller) under any
other key. -/
def box_decrypt (k : Key) (xblob : Bytes) : Option Bytes :=
  match decodeKey xblob with
  | some (kw, rest) => if kw = k then some rest else none
  | none => none

/-- The local filesystem, as a map from paths to file contents. -/
abbrev FS := String → Option Bytes

/-- Shallow embedding of `CitusCloudMgmt._load_cookies`: if a cookies
path is configured and the file exists, split off the leading
`SALTBYTES` salt, build the secret box (asserting the salt length),
authenticated-decrypt the remainder, unpickle the jar and merge it into
the session's jar with `update`.  Returns the resulting session jar and
the list of paths read. -/
def _load_cookies (password totp_secret : String)
    (cookies_path : Option String) (fs : FS) (sessionJar : Jar) :
    Except Err (Jar × List String) :=
  match cookies_path with
  | none => Except.ok (sessionJar, [])
  | some p =>
    match fs p with
    | none => Except.ok (sessionJar, [])
    | some xblob =>
      let salt := xblob.take SALTBYTES
      match _secret_box password totp_secret salt with
      | Except.error e => Except.error e
      | Except.ok box =>
        match box_decrypt box (xblob.drop SALTBYTES) with
        | none => Except.error Err.decryptionError
        | some blob =>
          match pickle_loads blob with
          | none => Except.error Err.pickleError
          | some jar => Except.ok (jar_update sessionJar jar, [p])

/-- Shallow embedding of `CitusCloudMgmt._save_cookies`: if a cookies
path is configured, pickle the session jar, draw a fresh random salt
(modelled as the `salt` argument), build the secret box, and atomically
write `salt ++ ciphertext` to the path.  Returns the updated filesystem
and the list of paths written. -/
def _save_cookies (password totp_secret : String)
    (cookies_path : Option String) (salt : Bytes) (fs : FS)
    (sessionJar : Jar) : Except Err (FS × List String) :=
  match cookies_path with
  | none => Except.ok (fs, [])
  | some p =>
    let blob := pickle_dumps sessionJar
    match _secret_box password totp_secret salt with
    | Except.error e => Except.error e
    | Except.ok box =>
      let xblob := salt ++ box_encrypt box blob
      Except.ok (fun q => if q = p then some xblob else fs q, [p])

/-- The in-memory client state built by `CitusCloudMgmt.__init__`. -/
structure CitusCloudMgmt where
  logged_in : Bool
  user : String
  password : String
  totp_secret : String
  cookies_path : Option String
  sessionJar : Jar

/-- Shallow embedding of `CitusCloudMgmt.__init__`: record the
credentials, set `cookies_path` to `None` when no prefix is given and to
`cookies_path_prefix + user` otherwise, create a fresh session (empty
jar) and run `_load_cookies`. -/
def CitusCloudMgmt.init (user password totp_secret : String)
    ( cookies_path_prefix : Option String) (fs : FS) :
    Except Err CitusCloudMgmt :=
  let cookies_path := Option.map (fun pre => pre ++ user) cookies_path_prefix
  match _load_cookies password totp_secret cookies_path fs [] with
  | Except.error e => Except.error e
  | Except.ok (jar, _) =>
    Except.ok ⟨false, user, password, totp_secret, cookies_path, jar⟩

/-! ### Role administration -/

/-- The JSON object returned by the role-creation endpoint, restricted to
the fields `create_role` reads (both are asserted to be strings). -/
structure RoleJson where
  id_ : String
  name : String
deriving DecidableEq

/-- The observable shape of one HTTP call made through `_request`. -/
structure HttpCall where
  method : String
  path : String
  headers : List (String × String)
  jsonBody : List (String × String)
deriving DecidableEq

/-- The mutating POST issued by `CitusCloudMgmt.create_role`: the
`role_name` JSON body with the CSRF token header. -/
def create_role_call (formation name auth_token : String) : HttpCall :=
  { method := "post"
    path := "formations/" ++ formation ++ "/roles"
    headers := [("Accept", "application/json"), ("X-CSRF-Token", auth_token)]
    jsonBody := [("role_name", name)] }

/-- Shallow embedding of the response handling of
`CitusCloudMgmt.create_role`: read `data["id"]` (asserted to be a
string); if it equals `"conflict"`, raise `RoleAlreadyExists(name)`
(before the name check); otherwise `assert data["name"] == name` and
return the id. -/
def create_role_response (name : String) (data : RoleJson) :
    Except Err String :=
  if data.id_ = "conflict" then
    Except.error (Err.roleAlreadyExists name)
  else if data.name = name then
    Except.ok data.id_
  else
    Except.error Err.assertionFailed

/-- A node of the parsed credentials page body: a bs4 `NavigableString`
or a tag element with children. -/
inductive HtmlNode where
  | text (s : String)
  | tag (name : String) (children : List HtmlNode)

/-- Shallow embedding of the response handling of
`CitusCloudMgmt.get_role_credentials`: `assert body`,
`assert len(body.contents) == 1`,
`assert isinstance(body.contents[0], NavigableString)`, then return the
stripped text. -/
def get_role_credentials (body : Option (List HtmlNode)) :
    Except Err String :=
  match body with
  | none => Except.error Err.assertionFailed
  | some contents =>
    if contents.length = 1 then
      match contents.head? with
      | some (HtmlNode.text s) => Except.ok (strip s)
      | _ => Except.error Err.assertionFailed
    else
      Except.error Err.assertionFailed

/-! ### Codec lemmas -/

/-- Decoding a string encoded by `encStr` from the front of a stream
recovers the string and the remainder. -/
theorem decStr_encStr (s : String) (r : Bytes) :
    decStr (encStr s ++ r) = some (s, r) := by
  obtain ⟨l⟩ := s
  simp only [encStr, decStr, List.cons_append]
  rw [if_pos]
  · have ht : (l.map Char.toNat ++ r).take l.length = l.map Char.toNat := by
      conv_lhs => rw [show l.length = (l.map Char.toNat).length by simp]
      exact List.take_left _ _
    have hd : (l.map Char.toNat ++ r).drop l.length = r := by
      conv_lhs => rw [show l.length = (l.map Char.toNat).length by simp]
      exact List.drop_left _ _
    simp [ht, hd, List.map_map, Function.comp_def, Char.ofNat_toNat]
  · simp

/-- Decoding `jar.length` pairs from the front of a pickled jar recovers
the jar and the remainder. -/
theorem decPairs_append (jar : Jar) (r : Bytes) :
    decPairs jar.length
        (jar.flatMap (fun p => encStr p.1 ++ encStr p.2) ++ r) =
      some (jar, r) := by
  induction jar generalizing r with
  | nil => simp [decPairs]
  | cons hdp tl ih =>
    simp only [List.flatMap_cons, List.length_cons, List.append_assoc]
    simp only [decPairs, decStr_encStr, ih]

/-- `pickle.loads` inverts `pickle.dumps`. -/
theorem pickle_loads_dumps (jar : Jar) :
    pickle_loads (pickle_dumps jar) = some jar := by
  have h := decPairs_append jar []
  simp only [List.append_nil] at h
  simp [pickle_loads, pickle_dumps, h]

/-- Reading a length-prefixed segment from the front of a stream
recovers the segment and the remainder. -/
theorem decSeg_append (l r : Bytes) :
    decSeg (l.length :: (l ++ r)) = some (l, r) := by
  simp [decSeg, List.take_left, List.drop_left]

/-- Decoding a key encoded by `encodeKey` from the front of a stream
recovers the key and the remainder. -/
theorem decodeKey_encodeKey (k : Key) (m : Bytes) :
    decodeKey (encodeKey k ++ m) = some (k, m) := by
  obtain ⟨inp, salt⟩ := k
  have h1 : encodeKey ⟨inp, salt⟩ ++ m =
      (inp.map Char.toNat).length ::
        ((inp.map Char.toNat) ++ (salt.length :: (salt ++ m))) := by
    simp [encodeKey]
  rw [decodeKey, h1, decSeg_append]
  simp [decSeg_append, List.map_map, Function.comp_def, Char.ofNat_toNat]

/-- Decryption under the writing key recovers the plaintext. -/
theorem box_decrypt_encrypt (k : Key) (m : Bytes) :
    box_decrypt k (box_encrypt k m) = some m := by
  simp [box_decrypt, box_encrypt, decodeKey_encodeKey]

/-- Decryption under any key other than the writing key fails. -/
theorem box_decrypt_wrong_key (k kq : Key) (m : Bytes) (h : kq ≠ k) :
    box_decrypt kq (box_encrypt k m) = none := by
  simp [box_decrypt, box_encrypt, decodeKey_encodeKey]
  intro heq
  exact absurd heq.symm h

/-- Updating a jar with cookies whose keys are fresh appends them. -/
theorem jar_update_fresh (jar : Jar) : ∀ acc : Jar,
    (∀ p ∈ jar, ∀ q ∈ acc, q.1 ≠ p.1) →
    (jar.map Prod.fst).Nodup →
    jar_update acc jar = acc ++ jar := by
  induction jar with
  | nil =>
    intro acc _ _
    simp [jar_update]
  | cons hdp tl ih =>
    intro acc hd hn
    have hcond : ¬(acc.any (fun p => p.1 == hdp.1) = true) := by
      simp only [List.any_eq_true, beq_iff_eq]
      push_neg
      intro q hq
      exact hd hdp (List.mem_cons_self _ _) q hq
    have hset : set_cookie acc hdp.1 hdp.2 = acc ++ [(hdp.1, hdp.2)] := by
      rw [set_cookie, if_neg hcond]
    simp only [List.map_cons, List.nodup_cons] at hn
    have harg : ∀ p ∈ tl, ∀ q ∈ acc ++ [(hdp.1, hdp.2)], q.1 ≠ p.1 := by
      intro p hp q hq
      rcases List.mem_append.mp hq with hq' | hq'
      · exact hd p (List.mem_cons_of_mem _ hp) q hq'
      · simp only [List.mem_singleton] at hq'
        subst hq'
        intro hcontra
        exact hn.1 (hcontra ▸ List.mem_map_of_mem Prod.fst hp)
    calc jar_update acc (hdp :: tl)
        = jar_update (set_cookie acc hdp.1 hdp.2) tl := rfl
      _ = jar_update (acc ++ [(hdp.1, hdp.2)]) tl := by rw [hset]
      _ = (acc ++ [(hdp.1, hdp.2)]) ++ tl := ih _ harg hn.2
      _ = acc ++ hdp :: tl := by simp

/-- Updating a fresh (empty) session jar with a well-formed jar yields
exactly that jar. -/
theorem jar_update_nil (jar : Jar) (hn : (jar.map Prod.fst).Nodup) :
    jar_update [] jar = jar := by
  rw [jar_update_fresh jar [] (by intro p _ q hq; cases hq) hn]
  rfl

/-! ### Claims about the cookie persistence layer -/

/-- C2: for every cookie jar J, password P and TOTP secret T, saving the
jar with `_save_cookies` under (P, T) and loading the written file with
`_load_cookies` into a fresh session under the same (P, T) yields a
session whose cookie jar equals J, for every (fresh, random) salt of the
fixed libsodium size prefixed to the file. -/
theorem cookies_save_load_round_trip
    (jar : Jar) (password totp_secret : String) (salt : Bytes)
    (fs : FS) (p : String)
    (hsalt : salt.length = SALTBYTES)
    (hjar : (jar.map Prod.fst).Nodup) :
    ∃ fs2 : FS,
      _save_cookies password totp_secret (some p) salt fs jar =
        Except.ok (fs2, [p]) ∧
      _load_cookies password totp_secret (some p) fs2 [] =
        Except.ok (jar, [p]) := by
  have hbox : _secret_box password totp_secret salt =
      Except.ok (kdf (password.data ++ totp_secret.data) salt) := by
    rw [_secret_box, if_pos hsalt]
  set key := kdf (password.data ++ totp_secret.data) salt with hkey
  refine ⟨fun q => if q = p then
    some (salt ++ box_encrypt key (pickle_dumps jar)) else fs q, ?_, ?_⟩
  · simp only [_save_cookies, hbox]
  · have htake : (salt ++ box_encrypt key (pickle_dumps jar)).take SALTBYTES =
        salt := by
      rw [← hsalt]
      exact List.take_left _ _
    have hdrop : (salt ++ box_encrypt key (pickle_dumps jar)).drop SALTBYTES =
        box_encrypt key (pickle_dumps jar) := by
      rw [← hsalt]
      exact List.drop_left _ _
    simp only [_load_cookies, if_pos, htake, hdrop, hbox,
      box_decrypt_encrypt, pickle_loads_dumps, jar_update_nil jar hjar]

/-- Witness for `cookies_save_load_round_trip` at a concrete jar,
credential pair, salt and path. -/
theorem cookies_save_load_round_trip_witness :
    (List.replicate 32 0).length = SALTBYTES ∧
    (([("sess", "abc")] : Jar).map Prod.fst).Nodup ∧
    ∃ fs2 : FS,
      _save_cookies "pw" "ts" (some "cjar") (List.replicate 32 0)
          (fun _ => none) [("sess", "abc")] = Except.ok (fs2, ["cjar"]) ∧
      _load_cookies "pw" "ts" (some "cjar") fs2 [] =
        Except.ok ([("sess", "abc")], ["cjar"]) :=
  ⟨by decide, by decide,
    cookies_save_load_round_trip [("sess", "abc")] "pw" "ts"
      (List.replicate 32 0) (fun _ => none) "cjar" (by decide) (by decide)⟩

/-- A concrete salt of the fixed libsodium scrypt size. -/
def demo_salt : Bytes := List.replicate 32 0

/-- A concrete cookie jar. -/
def demo_jar : Jar := [("session_cookie", "v1")]

/-- The cookie file `_save_cookies` writes for `demo_jar` under the pair
(password = "ab", totp secret = "c") with salt `demo_salt`. -/
def demo_saved_file : Bytes :=
  demo_salt ++
    box_encrypt (kdf (("ab" : String).data ++ ("c" : String).data) demo_salt)
      (pickle_dumps demo_jar)

/-- The filesystem state after that save (starting from no files). -/
def demo_fs2 : FS := fun q =>
  if q = "cookiesfile" then some demo_saved_file else none

/-- C3 counterexample: the pair (password = "a", totp secret = "bc") is
distinct from the writing pair (password = "ab", totp secret = "c"), yet
loading the file written under the latter with the former succeeds and
yields the original jar, because the KDF input is the concatenation of
the password and TOTP-secret bytes and the two concatenations coincide.
The claim "decryption succeeds only for clients holding the exact same
(password, totp_secret) pair" is therefore false. -/
theorem cookies_coinciding_pair_counterexample :
    (("a", "bc") : String × String) ≠ (("ab", "c") : String × String) ∧
    _save_cookies "ab" "c" (some "cookiesfile") demo_salt (fun _ => none)
        demo_jar = Except.ok (demo_fs2, ["cookiesfile"]) ∧
    _load_cookies "a" "bc" (some "cookiesfile") demo_fs2 [] =
      Except.ok (demo_jar, ["cookiesfile"]) :=
  ⟨by decide, rfl, rfl⟩

/-- C3 (amended): a cookie file written by `_save_cookies` under
(P, T) decrypts exactly for the pairs (P', T') whose concatenation
P' ++ T' equals P ++ T (these include (P, T) itself); for every pair
whose concatenation differs, `_load_cookies` fails with the decryption
error and never produces a session. -/
theorem cookies_undecryptable_without_matching_concatenation
    (jar : Jar) (P T Pq Tq : String) (salt : Bytes) (fs fs2 : FS)
    (p : String) (writes : List String)
    (hsalt : salt.length = SALTBYTES)
    (hsave : _save_cookies P T (some p) salt fs jar =
      Except.ok (fs2, writes))
    (hne : Pq ++ Tq ≠ P ++ T) :
    _load_cookies Pq Tq (some p) fs2 [] =
      Except.error Err.decryptionError := by
  have hboxPT : _secret_box P T salt =
      Except.ok (kdf (P.data ++ T.data) salt) := by
    rw [_secret_box, if_pos hsalt]
  have hboxQ : _secret_box Pq Tq salt =
      Except.ok (kdf (Pq.data ++ Tq.data) salt) := by
    rw [_secret_box, if_pos hsalt]
  simp only [_save_cookies, hboxPT, Except.ok.injEq, Prod.mk.injEq] at hsave
  obtain ⟨hfs2, -⟩ := hsave
  have hdata : Pq.data ++ Tq.data ≠ P.data ++ T.data := by
    intro h
    apply hne
    apply String.ext
    rw [String.data_append, String.data_append, h]
  have hkeyne : kdf (Pq.data ++ Tq.data) salt ≠
      kdf (P.data ++ T.data) salt := by
    intro h
    exact hdata (congrArg Key.input h)
  have hfile : fs2 p =
      some (salt ++
        box_encrypt (kdf (P.data ++ T.data) salt) (pickle_dumps jar)) := by
    rw [← hfs2]
    simp
  have htake : (salt ++
      box_encrypt (kdf (P.data ++ T.data) salt) (pickle_dumps jar)).take
        SALTBYTES = salt := by
    rw [← hsalt]
    exact List.take_left _ _
  have hdrop : (salt ++
      box_encrypt (kdf (P.data ++ T.data) salt) (pickle_dumps jar)).drop
        SALTBYTES =
      box_encrypt (kdf (P.data ++ T.data) salt) (pickle_dumps jar) := by
    rw [← hsalt]
    exact List.drop_left _ _
  simp only [_load_cookies, hfile, htake, hdrop, hboxQ,
    box_decrypt_wrong_key _ _ _ hkeyne]

/-- Witness for `cookies_undecryptable_without_matching_concatenation`:
a pair with a different concatenation fails to decrypt the demo file. -/
theorem cookies_undecryptable_witness :
    demo_salt.length = SALTBYTES ∧
    _save_cookies "ab" "c" (some "cookiesfile") demo_salt (fun _ => none)
        demo_jar = Except.ok (demo_fs2, ["cookiesfile"]) ∧
    (("x" ++ "y" : String) ≠ ("ab" ++ "c" : String)) ∧
    _load_cookies "x" "y" (some "cookiesfile") demo_fs2 [] =
      Except.error Err.decryptionError :=
  ⟨by decide, rfl, by decide,
    cookies_undecryptable_without_matching_concatenation demo_jar "ab" "c"
      "x" "y" demo_salt (fun _ => none) demo_fs2 "cookiesfile"
      ["cookiesfile"] (by decide) rfl (by decide)⟩

/-- C9: a client constructed with `cookies_path_prefix = None` has
`cookies_path = None`, and with that configuration the two cookie
persistence functions -- through which all of the module's filesystem
access flows (construction, `login`, `list_roles`, `create_role`,
`delete_role`, `get_role_credentials` all reach the filesystem only via
`_load_cookies` at construction and `_save_cookies` inside `_request`) --
read no file and leave the filesystem unchanged. -/
theorem no_cookie_file_io_without_prefix
    (user password totp_secret : String) (fs : FS) (jar : Jar)
    (salt : Bytes) :
    CitusCloudMgmt.init user password totp_secret none fs =
      Except.ok { logged_in := false, user := user, password := password,
                  totp_secret := totp_secret, cookies_path := none,
                  sessionJar := [] } ∧
    _load_cookies password totp_secret none fs jar =
      Except.ok (jar, []) ∧
    _save_cookies password totp_secret none salt fs jar =
      Except.ok (fs, []) :=
  ⟨rfl, rfl, rfl⟩

/-- C10: if the cookie file exists but is strictly shorter than the
scrypt salt size, client construction fails with the salt-length
assertion in `_secret_box` (the salt slice taken from the file prefix is
too short) and never yields a constructed client. -/
theorem truncated_cookie_file_fails_closed
    (user password totp_secret pre : String) (fs : FS) (blob : Bytes)
    (hfile : fs (pre ++ user) = some blob)
    (hshort : blob.length < SALTBYTES) :
    CitusCloudMgmt.init user password totp_secret (some pre) fs =
      Except.error Err.assertionFailed := by
  have hlen : ¬((blob.take SALTBYTES).length = SALTBYTES) := by
    rw [List.length_take]
    omega
  have hload : _load_cookies password totp_secret (some (pre ++ user))
      fs [] = Except.error Err.assertionFailed := by
    simp only [_load_cookies, hfile, _secret_box, if_neg hlen]
  simp only [CitusCloudMgmt.init, Option.map, hload]

/-- Witness for `truncated_cookie_file_fails_closed` at a concrete
three-byte cookie file. -/
theorem truncated_cookie_file_witness :
    ((fun q => if q = "c/u" then some ([1, 2, 3] : Bytes) else none : FS)
        ("c/" ++ "u") = some ([1, 2, 3] : Bytes)) ∧
    ([1, 2, 3] : Bytes).length < SALTBYTES ∧
    CitusCloudMgmt.init "u" "pw" "ts" (some "c/")
        (fun q => if q = "c/u" then some ([1, 2, 3] : Bytes) else none) =
      Except.error Err.assertionFailed :=
  ⟨by decide, by decide,
    truncated_cookie_file_fails_closed "u" "pw" "ts" "c/"
      (fun q => if q = "c/u" then some ([1, 2, 3] : Bytes) else none)
      [1, 2, 3] (by decide) (by decide)⟩

/-! ### Claims about the authenticated-request primitive -/

/-- One loop iteration on an in-session final response: save and return. -/
theorem request_direct_success (url : String) (server : Nat → Response)
    (k fuel : Nat) (hok : (server k).ok = true)
    (hurl : (server k).url = url) :
    _request url server k (fuel + 1) =
      (ReqOutcome.success (server k),
       [ClientAction.attempt, ClientAction.save]) := by
  simp [_request, hok, hurl]

/-- C1: `_request` resolves the final response URL in exactly three ways.
If the final URL equals the requested URL, it saves the cookie jar and
returns the response.  If it equals any third URL, it raises the
unexpected-redirect error and performs no save.  If it equals the
sign-in URL, it runs the sign-in flow (credential POST, then OTP POST)
and retries the original request: when the server then accepts, the
run succeeds with exactly one cookie save, placed after the final
in-session response. -/
theorem request_redirect_resolution
    (url : String) (server : Nat → Response) (fuel : Nat) :
    ((server 0).ok = true → (server 0).url = url →
      _request url server 0 (fuel + 1) =
        (ReqOutcome.success (server 0),
         [ClientAction.attempt, ClientAction.save])) ∧
    ((server 0).ok = true → (server 0).url ≠ url →
     (server 0).url ≠ SIGNIN_URL →
      _request url server 0 (fuel + 1) =
        (ReqOutcome.failure (Err.unexpectedRedirect (server 0).url),
         [ClientAction.attempt])) ∧
    ((server 0).ok = true → (server 0).url ≠ url →
     (server 0).url = SIGNIN_URL →
     (∃ hidden, (server 0).page.newUserForm = some hidden) →
     (server 1).ok = true →
     startswith (server 1).url (SIGNIN_URL ++ "?") = true →
     (server 1).page.twofaWidget = true →
     (∃ tok, (server 1).page.csrfToken = some tok) →
     (server 2).ok = true →
     ((server 2).url = FORMATIONS_URL ∨ (server 2).url = url) →
     (server 3).ok = true →
     (server 3).url = url →
      _request url server 0 (fuel + 2) =
        (ReqOutcome.success (server 3),
         [ClientAction.attempt, ClientAction.postCreds, ClientAction.postOtp,
          ClientAction.attempt, ClientAction.save]) ∧
      ((_request url server 0 (fuel + 2)).2.count ClientAction.save = 1)) := by
  refine ⟨?_, ?_, ?_⟩
  · intro h0 h0u
    exact request_direct_success url server 0 fuel h0 h0u
  · intro h0 h0u h0s
    simp [_request, h0, h0u, h0s]
  · rintro h0 h0u h0s ⟨hidden, hform⟩ h1 h1p h1w ⟨tok, htok⟩ h2 h2u h3 h3u
    have hrec : _request url server 3 (fuel + 1) =
        (ReqOutcome.success (server 3),
         [ClientAction.attempt, ClientAction.save]) :=
      request_direct_success url server 3 fuel h3 h3u
    have hmain : _request url server 0 (fuel + 2) =
        (ReqOutcome.success (server 3),
         [ClientAction.attempt, ClientAction.postCreds, ClientAction.postOtp,
          ClientAction.attempt, ClientAction.save]) := by
      have hne : SIGNIN_URL ≠ url := h0s ▸ h0u
      show _request url server 0 ((fuel + 1) + 1) = _
      simp [_request, h0, hne, h0s, hform, h1, h1p, h1w, htok, h2, h2u, hrec,
        h3, h3u]
    refine ⟨hmain, ?_⟩
    rw [hmain]
    rfl

/-- C4: in every execution of `_request`, a `_save_cookies` call occurs
only as the very last action, immediately after a request attempt whose
final response URL equals the originally requested URL (the returned
in-session response); it never follows either bare sign-in POST,
regardless of how many sign-in cycles precede it. -/
theorem save_only_after_in_session_response
    (url : String) (server : Nat → Response) (k fuel : Nat)
    (out : ReqOutcome) (tr : List ClientAction)
    (heq : _request url server k fuel = (out, tr))
    (hmem : ClientAction.save ∈ tr) :
    (∃ t, tr = t ++ [ClientAction.attempt, ClientAction.save] ∧
      ClientAction.save ∉ t) ∧
    ∃ r, out = ReqOutcome.success r ∧ r.url = url := by
  induction fuel generalizing k out tr with
  | zero =>
    simp only [_request] at heq
    injection heq with h1 h2
    subst h1
    subst h2
    exact absurd hmem (by decide)
  | succ n ih =>
    simp only [_request] at heq
    repeat' split at heq
    all_goals injection heq with h1 h2
    all_goals subst h1
    all_goals subst h2
    all_goals simp at hmem
    · rename_i hurl
      exact ⟨⟨[], rfl, by decide⟩, ⟨server k, rfl, hurl⟩⟩
    · obtain ⟨⟨t, ht, hns⟩, ⟨r, hr, hru⟩⟩ := ih (k + 3) _ _ rfl hmem
      refine ⟨⟨ClientAction.attempt :: ClientAction.postCreds ::
        ClientAction.postOtp :: t, ?_, ?_⟩, ⟨r, hr, hru⟩⟩
      · simp [ht]
      · simp [hns]

/-- The sign-in page: the `new_user` form with a hidden input, no
TwoFAWidget. -/
def demo_signin_page : Page :=
  { newUserForm := some [("authenticity_token", "t0")]
    twofaWidget := false
    csrfToken := none }

/-- The two-factor challenge page: TwoFAWidget present with a csrf meta
token. -/
def demo_twofa_page : Page :=
  { newUserForm := none, twofaWidget := true, csrfToken := some "tok1" }

/-- A plain content page. -/
def demo_plain_page : Page :=
  { newUserForm := none, twofaWidget := false, csrfToken := none }

/-- A server that redirects the first request to sign-in, plays the
two sign-in steps correctly, then accepts the retried request. -/
def demo_server : Nat → Response := fun k =>
  if k = 0 then { ok := true, url := SIGNIN_URL, page := demo_signin_page }
  else if k = 1 then
    { ok := true, url := SIGNIN_URL ++ "?login", page := demo_twofa_page }
  else if k = 2 then
    { ok := true, url := FORMATIONS_URL, page := demo_plain_page }
  else { ok := true, url := FORMATIONS_URL, page := demo_plain_page }

/-- Witness for `request_redirect_resolution`: under `demo_server` the
redirect-once-to-sign-in scenario succeeds with exactly one save. -/
theorem request_redirect_resolution_witness :
    (demo_server 0).ok = true ∧
    (demo_server 0).url ≠ FORMATIONS_URL ∧
    (demo_server 0).url = SIGNIN_URL ∧
    (demo_server 3).url = FORMATIONS_URL ∧
    (_request FORMATIONS_URL demo_server 0 (0 + 2) =
      (ReqOutcome.success (demo_server 3),
       [ClientAction.attempt, ClientAction.postCreds, ClientAction.postOtp,
        ClientAction.attempt, ClientAction.save]) ∧
     (_request FORMATIONS_URL demo_server 0 (0 + 2)).2.count
        ClientAction.save = 1) :=
  ⟨by decide, by decide, by decide, by decide,
    (request_redirect_resolution FORMATIONS_URL demo_server 0).2.2
      (by decide) (by decide) (by decide) ⟨_, rfl⟩ (by decide) (by decide)
      (by decide) ⟨_, rfl⟩ (by decide) (Or.inl (by decide)) (by decide)
      (by decide)⟩

/-- Witness for `save_only_after_in_session_response` at a concrete
directly-accepting response. -/
theorem save_only_after_in_session_response_witness :
    _request FORMATIONS_URL demo_server 3 1 =
      (ReqOutcome.success
        { ok := true, url := FORMATIONS_URL, page := demo_plain_page },
       [ClientAction.attempt, ClientAction.save]) ∧
    ClientAction.save ∈ [ClientAction.attempt, ClientAction.save] ∧
    ((∃ t, [ClientAction.attempt, ClientAction.save] =
        t ++ [ClientAction.attempt, ClientAction.save] ∧
        ClientAction.save ∉ t) ∧
     ∃ r, ReqOutcome.success
        { ok := true, url := FORMATIONS_URL, page := demo_plain_page } =
          ReqOutcome.success r ∧ r.url = FORMATIONS_URL) :=
  ⟨by decide, by decide,
    save_only_after_in_session_response FORMATIONS_URL demo_server 3 1 _ _
      (by decide) (by decide)⟩

/-- A server that redirects every attempt of the original request to the
sign-in URL, then completes both sign-in steps successfully, for ever:
call 3m is the redirected original attempt, call 3m+1 the two-factor
challenge, call 3m+2 the post-login landing on `FORMATIONS_URL`. -/
def looping_server : Nat → Response := fun k =>
  if k % 3 = 0 then
    { ok := true, url := SIGNIN_URL, page := demo_signin_page }
  else if k % 3 = 1 then
    { ok := true, url := SIGNIN_URL ++ "?login", page := demo_twofa_page }
  else
    { ok := true, url := FORMATIONS_URL, page := demo_plain_page }

/-- Under `looping_server` the loop never returns: every fuel budget is
exhausted, with one original-request attempt per sign-in cycle. -/
theorem looping_server_exhausts (fuel : Nat) : ∀ m : Nat,
    (_request FORMATIONS_URL looping_server (3 * m) fuel).1 =
      ReqOutcome.outOfFuel ∧
    (_request FORMATIONS_URL looping_server (3 * m) fuel).2.count
      ClientAction.attempt = fuel := by
  induction fuel with
  | zero =>
    intro m
    simp [_request]
  | succ n ih =>
    intro m
    have h0 : looping_server (3 * m) =
        { ok := true, url := SIGNIN_URL, page := demo_signin_page } := by
      simp [looping_server, Nat.mul_mod_right]
    have h1 : looping_server (3 * m + 1) =
        { ok := true, url := SIGNIN_URL ++ "?login",
          page := demo_twofa_page } := by
      have hm : (3 * m + 1) % 3 = 1 := by omega
      simp [looping_server, hm]
    have h2 : looping_server (3 * m + 2) =
        { ok := true, url := FORMATIONS_URL, page := demo_plain_page } := by
      have hm : (3 * m + 2) % 3 = 2 := by omega
      simp [looping_server, hm]
    have hne : SIGNIN_URL ≠ FORMATIONS_URL := by decide
    have hpre : startswith (SIGNIN_URL ++ "?login") (SIGNIN_URL ++ "?") =
        true := by decide
    have hk : 3 * m + 3 = 3 * (m + 1) := by ring
    have hrec := ih (m + 1)
    constructor
    · simp [_request, h0, h1, h2, hne, hpre, demo_signin_page,
        demo_twofa_page, demo_plain_page, hk, hrec.1]
    · simp [_request, h0, h1, h2, hne, hpre, demo_signin_page,
        demo_twofa_page, demo_plain_page, hk, hrec.2, List.count_cons]

/-- C5: the re-authenticate-and-retry loop in `_request` has no retry
limit.  Under `looping_server` (which redirects every attempt to sign-in
and completes every sign-in successfully) the loop exhausts every fuel
budget, and for every bound n the run with fuel n+1 performs more than n
original-request attempts: as a total function of the response stream,
`_request` does not terminate. -/
theorem request_reauth_loop_unbounded (n : Nat) :
    (∀ fuel, (_request FORMATIONS_URL looping_server 0 fuel).1 =
      ReqOutcome.outOfFuel) ∧
    n < (_request FORMATIONS_URL looping_server 0 (n + 1)).2.count
      ClientAction.attempt := by
  constructor
  · intro fuel
    exact (looping_server_exhausts fuel 0).1
  · have h := (looping_server_exhausts (n + 1) 0).2
    rw [show (3 * 0 : Nat) = 0 from rfl] at h
    omega

/-- A server whose credential-submission response redirects back to the
sign-in URL with a query string but whose page lacks the TwoFAWidget. -/
def demo_nowidget_server : Nat → Response := fun k =>
  if k = 0 then { ok := true, url := SIGNIN_URL, page := demo_signin_page }
  else { ok := true, url := SIGNIN_URL ++ "?login", page := demo_plain_page }

/-- C6 counterexample: after the credential POST, a redirect back to the
sign-in URL whose HTML body lacks the TwoFAWidget makes the code fail
with the `assert` failure (Python `AssertionError`), not with the
unexpected-redirect `RuntimeError` the claim names. -/
theorem signin_missing_widget_counterexample :
    _request FORMATIONS_URL demo_nowidget_server 0 1 =
      (ReqOutcome.failure Err.assertionFailed,
       [ClientAction.attempt, ClientAction.postCreds]) ∧
    ReqOutcome.failure Err.assertionFailed ≠
      ReqOutcome.failure
        (Err.unexpectedRedirectSignin1 (demo_nowidget_server 1).url) ∧
    ReqOutcome.failure Err.assertionFailed ≠
      ReqOutcome.failure
        (Err.unexpectedRedirect (demo_nowidget_server 1).url) :=
  ⟨by decide, by decide, by decide⟩

/-- C6 (amended): after the credential-submission step, a final URL that
is a redirect back to the sign-in URL (sign-in URL followed by a query
string) whose page carries the TwoFAWidget proceeds to the TOTP step;
every final URL that is not such a redirect -- including the boundary
case of the sign-in URL exactly, with no query string -- fails with the
step-1 unexpected-redirect error; and a redirect back to sign-in whose
page lacks the widget fails with the `assert` failure (not with the
unexpected-redirect error). -/
theorem signin_step1_outcomes
    (url : String) (server : Nat → Response) (fuel : Nat)
    (h0 : (server 0).ok = true) (h0u : (server 0).url ≠ url)
    (h0s : (server 0).url = SIGNIN_URL)
    (hform : ∃ hidden, (server 0).page.newUserForm = some hidden)
    (h1 : (server 1).ok = true) :
    (startswith (server 1).url (SIGNIN_URL ++ "?") = true →
     (server 1).page.twofaWidget = true →
     (∃ tok, (server 1).page.csrfToken = some tok) →
      ClientAction.postOtp ∈ (_request url server 0 (fuel + 1)).2) ∧
    (startswith (server 1).url (SIGNIN_URL ++ "?") = false →
      _request url server 0 (fuel + 1) =
        (ReqOutcome.failure (Err.unexpectedRedirectSignin1 (server 1).url),
         [ClientAction.attempt, ClientAction.postCreds])) ∧
    ((server 1).url = SIGNIN_URL →
      _request url server 0 (fuel + 1) =
        (ReqOutcome.failure (Err.unexpectedRedirectSignin1 SIGNIN_URL),
         [ClientAction.attempt, ClientAction.postCreds])) ∧
    (startswith (server 1).url (SIGNIN_URL ++ "?") = true →
     (server 1).page.twofaWidget = false →
      _request url server 0 (fuel + 1) =
        (ReqOutcome.failure Err.assertionFailed,
         [ClientAction.attempt, ClientAction.postCreds])) := by
  obtain ⟨hidden, hform⟩ := hform
  have hne : SIGNIN_URL ≠ url := h0s ▸ h0u
  refine ⟨?_, ?_, ?_, ?_⟩
  · rintro hpre hw ⟨tok, htok⟩
    simp [_request, h0, hne, h0s, hform, h1, hpre, hw, htok]
    by_cases h2 : (server 2).ok = false
    · simp [h2]
    · simp [h2]
      by_cases h2u : (server 2).url = FORMATIONS_URL ∨ (server 2).url = url
      · simp [h2u]
      · simp [h2u]
  · intro hpre
    simp [_request, h0, hne, h0s, hform, h1, hpre]
  · intro hurl1
    have hpre2 : startswith SIGNIN_URL (SIGNIN_URL ++ "?") = false := by
      decide
    simp [_request, h0, hne, h0s, hform, h1, hurl1, hpre2]
  · intro hpre hw
    simp [_request, h0, hne, h0s, hform, h1, hpre, hw]

/-- Witness for `signin_step1_outcomes`: under `demo_server` the widget
page proceeds to the OTP POST, and under `demo_nowidget_server` the
widget-less page ends in the assertion failure. -/
theorem signin_step1_outcomes_witness :
    (demo_server 0).ok = true ∧
    (demo_server 0).url ≠ FORMATIONS_URL ∧
    (demo_server 0).url = SIGNIN_URL ∧
    (demo_server 1).ok = true ∧
    startswith (demo_server 1).url (SIGNIN_URL ++ "?") = true ∧
    (demo_server 1).page.twofaWidget = true ∧
    ClientAction.postOtp ∈
      (_request FORMATIONS_URL demo_server 0 (0 + 1)).2 ∧
    startswith (demo_nowidget_server 1).url (SIGNIN_URL ++ "?") = true ∧
    (demo_nowidget_server 1).page.twofaWidget = false ∧
    _request FORMATIONS_URL demo_nowidget_server 0 (0 + 1) =
      (ReqOutcome.failure Err.assertionFailed,
       [ClientAction.attempt, ClientAction.postCreds]) :=
  ⟨by decide, by decide, by decide, by decide, by decide, by decide,
    (signin_step1_outcomes FORMATIONS_URL demo_server 0 (by decide)
      (by decide) (by decide) ⟨_, rfl⟩ (by decide)).1 (by decide)
      (by decide) ⟨_, rfl⟩,
   by decide, by decide,
    (signin_step1_outcomes FORMATIONS_URL demo_nowidget_server 0 (by decide)
      (by decide) (by decide) ⟨_, rfl⟩ (by decide)).2.2.2 (by decide)
      (by decide)⟩

/-! ### Claims about the role administration handlers -/

/-- C7: `create_role` POSTs the `role_name` JSON body with the CSRF
token header, and its response handling raises `RoleAlreadyExists(name)`
exactly when the response id equals the literal `"conflict"` (in that
case the name check is skipped: the outcome is the same for every
response name); otherwise it asserts the response name equals the
requested name and returns the id. -/
theorem create_role_conflict_handling
    (formation name auth_token : String) (data : RoleJson) :
    (create_role_call formation name auth_token).method = "post" ∧
    (create_role_call formation name auth_token).jsonBody =
      [("role_name", name)] ∧
    (create_role_call formation name auth_token).headers =
      [("Accept", "application/json"), ("X-CSRF-Token", auth_token)] ∧
    (create_role_response name data =
        Except.error (Err.roleAlreadyExists name) ↔
      data.id_ = "conflict") ∧
    (data.id_ ≠ "conflict" → data.name = name →
      create_role_response name data = Except.ok data.id_) ∧
    (data.id_ ≠ "conflict" → data.name ≠ name →
      create_role_response name data = Except.error Err.assertionFailed) := by
  refine ⟨rfl, rfl, rfl, ?_, ?_, ?_⟩
  · constructor
    · intro h
      by_cases hc : data.id_ = "conflict"
      · exact hc
      · exfalso
        by_cases hn : data.name = name <;>
          simp [create_role_response, hc, hn] at h
    · intro h
      simp [create_role_response, h]
  · intro h1 h2
    simp [create_role_response, h1, h2]
  · intro h1 h2
    simp [create_role_response, h1, h2]

/-- Witness for `create_role_conflict_handling`: a conflicting id raises
`RoleAlreadyExists` even with a mismatched response name, and a fresh id
with a matching name is returned. -/
theorem create_role_conflict_handling_witness :
    ((⟨"conflict", "zzz"⟩ : RoleJson).id_ = "conflict") ∧
    create_role_response "r1" ⟨"conflict", "zzz"⟩ =
      Except.error (Err.roleAlreadyExists "r1") ∧
    ((⟨"id42", "r1"⟩ : RoleJson).id_ ≠ "conflict") ∧
    create_role_response "r1" ⟨"id42", "r1"⟩ = Except.ok "id42" :=
  ⟨rfl,
   (create_role_conflict_handling "f" "r1" "tok"
      ⟨"conflict", "zzz"⟩).2.2.2.1.mpr rfl,
   by decide,
   (create_role_conflict_handling "f" "r1" "tok"
      ⟨"id42", "r1"⟩).2.2.2.2.1 (by decide) rfl⟩

/-- C8: `get_role_credentials` returns the stripped string of the body's
single text node when the body has exactly one child and that child is a
text node; a missing body, a body with zero children, a body with two or
more children, and a body whose single child is a non-text element all
fail with the assertion-style malformed-page error. -/
theorem get_role_credentials_body_shape
    (s tagname : String) (children contents : List HtmlNode) :
    get_role_credentials (some [HtmlNode.text s]) = Except.ok (strip s) ∧
    get_role_credentials (some []) = Except.error Err.assertionFailed ∧
    (2 ≤ contents.length →
      get_role_credentials (some contents) =
        Except.error Err.assertionFailed) ∧
    get_role_credentials (some [HtmlNode.tag tagname children]) =
      Except.error Err.assertionFailed ∧
    get_role_credentials none = Except.error Err.assertionFailed := by
  refine ⟨rfl, rfl, ?_, rfl, rfl⟩
  intro h
  have hlen : ¬(contents.length = 1) := by omega
  simp [get_role_credentials, hlen]

/-- Witness for `get_role_credentials_body_shape`: a whitespace-padded
single text node is stripped and returned; a two-child body fails. -/
theorem get_role_credentials_body_shape_witness :
    get_role_credentials (some [HtmlNode.text "  cred  "]) =
      Except.ok (strip "  cred  ") ∧
    (2 ≤ ([HtmlNode.text "a", HtmlNode.text "b"] : List HtmlNode).length) ∧
    get_role_credentials (some [HtmlNode.text "a", HtmlNode.text "b"]) =
      Except.error Err.assertionFailed :=
  ⟨(get_role_credentials_body_shape "  cred  " "t" [] []).1,
   by decide,
   (get_role_credentials_body_shape "x" "t" []
      [HtmlNode.text "a", HtmlNode.text "b"]).2.2.1 (by decide)⟩
